import Mathlib

/-!
Shallow embedding of `src/OverwriteFS/OverwriteFS.py` (v1.4.4): the
`overwriteFeatureService` workflow and its inner `touchItem` helper.

External SDK and I/O calls — the relationship queries, the feature-layer
manager read, opening and retrieving a URL, the platform `overwrite`, the
`item.update()` metadata refresh, and the file system — are modelled as an
environment (`Env`) of oracle responses.  The functions additionally return
a trace (`List Eff`) of the external calls they perform, so that claims of
the form "no further catalog call occurs" can be stated.

Python datetimes are modelled as seconds since the epoch (`Nat`); the
source's `0`-integer-vs-`datetime` sentinel convention becomes `Option Nat`
(`none` for the falsy `0`, `some t` for a datetime — note a datetime is
always truthy in Python, even the epoch, which `Option` reproduces).
Python runtime values that flow through `status` variables are modelled by
the fragment `PyVal`.
-/

namespace OverwriteFS

/-- Fragment of Python runtime values relevant to this program: the values
returned by `item.update()` and `manager.overwrite()` and stored in the
`result` field of outcome records. -/
inductive PyVal where
  | noneV : PyVal
  | boolV : Bool → PyVal
  | intV : Int → PyVal
  | strV : String → PyVal
  | dictV : List (String × PyVal) → PyVal

/-- Python truthiness for the modelled value fragment. -/
def truthy : PyVal → Bool
  | .noneV => false
  | .boolV b => b
  | .intV n => decide (n ≠ 0)
  | .strV s => decide (s ≠ "")
  | .dictV es => !es.isEmpty

/-- Python `v == True`: the boolean `True` and the number `1` compare equal
to `True`; every other modelled value does not. -/
def pyEqTrue : PyVal → Bool
  | .boolV b => b
  | .intV n => decide (n = 1)
  | _ => false

mutual

/-- Python `repr` on the modelled value fragment. -/
def pyRepr : PyVal → String
  | .noneV => "None"
  | .boolV true => "True"
  | .boolV false => "False"
  | .intV n => toString n
  | .strV s => "'" ++ s ++ "'"
  | .dictV es => "\x7b" ++ pyReprEntries es ++ "\x7d"

/-- Comma-separated rendering of the entries of a Python dict. -/
def pyReprEntries : List (String × PyVal) → String
  | [] => ""
  | [(k, v)] => "'" ++ k ++ "': " ++ pyRepr v
  | (k, v) :: rest => "'" ++ k ++ "': " ++ pyRepr v ++ ", " ++ pyReprEntries rest

end

/-- Python `str` on the modelled value fragment (as used by
`"...".format(e)`: a string renders as itself, other values via repr). -/
def pyStr : PyVal → String
  | .strV s => s
  | v => pyRepr v

/-- Python `isinstance(v, dict)` on the modelled fragment. -/
def isDict : PyVal → Bool
  | .dictV _ => true
  | _ => false

/-- Python dict key lookup (`"k" in v` / `v["k"]`) on the modelled fragment;
`none` when the value is not a dict or the key is absent. -/
def dictGet : PyVal → String → Option PyVal
  | .dictV es, k => (es.find? (fun p => p.1 == k)).map Prod.snd
  | _, _ => none

/-- Line 200 success test of the overwrite call:
`status and isinstance(status, dict) and "success" in status and status["success"]`. -/
def overwriteOk (v : PyVal) : Bool :=
  truthy v && isDict v && (dictGet v "success").isSome
    && truthy ((dictGet v "success").getD PyVal.noneV)

/-- Characters before the first occurrence of `c` (Python `s.split(c)[0]`
for a one-character separator). -/
def beforeFirst (c : Char) : List Char → List Char
  | [] => []
  | b :: rest => if b == c then [] else b :: beforeFirst c rest

/-- Characters after the last occurrence of `c`
(`os.path.split(s)[-1]` for the separator `/`). -/
def afterLast (c : Char) (l : List Char) : List Char :=
  (beforeFirst c l.reverse).reverse

/-- Whether `pat` is an initial segment of `l`. -/
def startsWithChars : List Char → List Char → Bool
  | [], _ => true
  | _ :: _, [] => false
  | a :: pa, b :: lb => a == b && startsWithChars pa lb

/-- Whether `pat` occurs contiguously inside `l`. -/
def hasSubChars (pat : List Char) : List Char → Bool
  | [] => pat.isEmpty
  | b :: rest => startsWithChars pat (b :: rest) || hasSubChars pat rest

/-- Python `pat in s` for strings: contiguous-substring test. -/
def containsSub (s pat : String) : Bool :=
  hasSubChars pat.data s.data

/-- Python `s.lower()` (the program only lowercases ASCII text: schemes and
error messages). -/
def pyLower (s : String) : String :=
  ⟨s.data.map Char.toLower⟩

/-- Python `s.replace("\n", " ")`: the pattern is a single character, so
the replacement maps every embedded newline character to a space. -/
def flattenNewlines (s : String) : String :=
  ⟨s.data.map (fun c => if c == '\n' then ' ' else c)⟩

/-- Lines 74 and 211: `status if not "error code" in status.lower() else
status.replace("\n", " ")`. -/
def flattenStatus (s : String) : String :=
  if containsSub (pyLower s) "error code" then flattenNewlines s else s

/-- Lines 73 and 210: `"Failed, Outcome: '{}'".format(e)`. -/
def failMsg (e : String) : String :=
  "Failed, Outcome: '" ++ e ++ "'"

/-- An `arcgis.gis.item` handle, reduced to the attributes the program
reads: `id`, `title`, `type`. -/
structure Item where
  id : String
  title : String
  type : String
deriving DecidableEq

/-- One entry of `outcome["items"]`: the dictionary
`{"id", "title", "itemType", "action", "result"}` built at lines 76, 89,
100, 160, 178, 184, 213 and 220.  `action` is `none` for the line-220
no-op record (Python `None`). -/
structure Record where
  id : String
  title : String
  itemType : String
  action : Option String
  result : PyVal

/-- The returned `outcome` dictionary: `{"success": None, "items": []}` at
line 83, `success` taking values `None`/`True`/`False`. -/
structure Outcome where
  success : Option Bool
  items : List Record

/-- External calls the workflow performs, in order: relationship queries,
the feature-layer manager read (line 112), `urllib.request.urlopen`
(line 145), `urllib.request.urlretrieve` (line 171), `manager.overwrite`
(line 198), and `item.update()` (line 63, tagged with the item's id). -/
inductive Eff where
  | queryRelated : String → Eff
  | managerRead : Eff
  | urlOpenCall : Eff
  | urlRetrieveCall : Eff
  | overwriteCall : Eff
  | updateCall : String → Eff
deriving DecidableEq

/-- Oracle responses of the external world for one invocation.
`urlOpen`: error string if `urlopen` raises, else the headers reduced to
the "Last-Modified" entry — `none` if absent, `some none` if present but
`strptime` raises on it, `some (some t)` if it parses to time `t`.
`serviceLastEditMs`: the `layers[0].editingInfo.lastEditDate` value in
milliseconds, with `0` for the absent/no-layers cases (line 116).
`tempMtime`: `st_mtime` of a pre-existing file at the temp download path,
`none` when no such file exists (line 129). -/
structure Env where
  dataItems : List String
  views : List Item
  serviceLastEditMs : Nat
  tempMtime : Option Nat
  tempDir : String
  urlOpen : Except String (Option (Option Nat))
  urlRetrieve : Except String Unit
  overwriteRet : Except String PyVal
  touchRet : Item → Except String PyVal

/-- Builds one outcome record for an item. -/
def mkRecord (it : Item) (action : Option String) (result : PyVal) : Record :=
  ⟨it.id, it.title, it.type, action, result⟩

/-- Python `outcome["items"].append(r)`. -/
def appendRecord (o : Outcome) (r : Record) : Outcome :=
  ⟨o.success, o.items ++ [r]⟩

/-- Lines 57-77, the inner `touchItem`: call `item.update()`; if the result
does not compare `== True`, raise and capture the failure string (with the
"error code" newline flattening); append one "touch" record holding either
the original returned value or the failure string; return `status == True`. -/
def touchItem (ret : Except String PyVal) (it : Item) (outcome : Outcome) :
    Outcome × Bool :=
  match ret with
  | .ok v =>
    if pyEqTrue v then
      (appendRecord outcome (mkRecord it (some "touch") v), true)
    else
      (appendRecord outcome
        (mkRecord it (some "touch") (.strV (flattenStatus (failMsg (pyStr v))))), false)
  | .error e =>
    (appendRecord outcome
      (mkRecord it (some "touch") (.strV (flattenStatus (failMsg e)))), false)

/-- Line 125 / 249 scheme sniff: `updateFile.split(":")[0].lower()`. -/
def urlScheme (s : String) : String :=
  pyLower ⟨beforeFirst ':' s.data⟩

/-- Whether the update source is treated as a URL (line 125). -/
def isUrl (s : String) : Bool :=
  ["ftp", "http", "https"].contains (urlScheme s)

/-- Final path component, `os.path.split(s)[-1]` (posix separator). -/
def baseName (s : String) : String :=
  ⟨afterLast '/' s.data⟩

/-- Python truthiness of the optional `updateFile` argument (line 108
`if updateFile:`): `None` and the empty string are falsy. -/
def truthyStr : Option String → Option String
  | some s => if s = "" then none else some s
  | none => none

/-- Lines 116-117 and 129-132: the effective reference timestamp — the
service's last-edit time (milliseconds, `0` = absent, converted to seconds)
when available, else the pre-existing local copy's modification time. -/
def effectiveRef (env : Env) : Option Nat :=
  match (if env.serviceLastEditMs = 0 then none
         else some (env.serviceLastEditMs / 1000) : Option Nat) with
  | some t => some t
  | none => env.tempMtime

/-- Line 155 condition: `lastModified and "Last-Modified" in headers and
lastModified >= strptime(headers["Last-Modified"], ...)`; a `strptime`
failure (`some none`) is swallowed by the inner `except` and counts as "no
short-circuit". -/
def noChangeCheck (lastModified : Option Nat) (headers : Option (Option Nat)) : Bool :=
  match lastModified, headers with
  | some t, some (some h) => decide (h ≤ t)
  | _, _ => false

/-- Lines 196-211: the `status` variable after the overwrite try/except —
`True` when the call's returned value passes the line-200 test, otherwise
the raised/failing value captured as a flattened failure string. -/
def owStatus (env : Env) : PyVal :=
  match env.overwriteRet with
  | .ok v => if overwriteOk v then .boolV true
             else .strV (flattenStatus (failMsg (pyStr v)))
  | .error e => .strV (flattenStatus (failMsg e))

/-- Lines 195-214: call `manager.overwrite`; append the "update" record
holding `owStatus` and set `outcome["success"] = (status == True)`.  The
third component records that control reaches the line-225 cascade check. -/
def doOverwrite (env : Env) (it : Item) (outcome : Outcome) (effs : List Eff) :
    Outcome × List Eff × Bool :=
  let status := owStatus env
  let o := appendRecord outcome (mkRecord it (some "update") status)
  (⟨some (pyEqTrue status), o.items⟩, effs ++ [.overwriteCall], true)

/-- Lines 83-220, the body before the cascade check.  Returns the outcome
so far, the trace of external calls, and whether control reaches line 225
(`false` on the `return outcome` early exits at lines 103, 162, 181, 187). -/
def mainBody (env : Env) (it : Item) (updateFile : Option String)
    (touchItems : Bool) : Outcome × List Eff × Bool :=
  let outcome : Outcome := ⟨none, []⟩
  if it.type ≠ "Feature Service" then
    (⟨some false,
      [mkRecord it (some "verify") (.strV "Item Type is NOT a 'Feature Service'")]⟩,
     [], true)
  else
    let outputFile := env.dataItems.getLastD ""
    let effs : List Eff := [.queryRelated "Service2Data"]
    if outputFile = "" then
      (⟨some false,
        [mkRecord it (some "verify")
          (.strV "Missing Associated Service Data Item or datafile Item 'name'")]⟩,
       effs, false)
    else
      match truthyStr updateFile with
      | some uf =>
        let effs := effs ++ [.managerRead]
        if isUrl uf then
          let effs := effs ++ [.urlOpenCall]
          match env.urlOpen with
          | .error e =>
            (⟨some false,
              [mkRecord it (some "download")
                (.strV ("Failed to Download data from url, Outcome: '" ++ e ++ "'"))]⟩,
             effs, false)
          | .ok headers =>
            if noChangeCheck (effectiveRef env) headers then
              (⟨none, [mkRecord it (some "download") (.strV "No Change in URL Data")]⟩,
               effs, false)
            else
              let effs := effs ++ [.urlRetrieveCall]
              match env.urlRetrieve with
              | .error e =>
                (⟨some false,
                  [mkRecord it (some "download")
                    (.strV ("Failed to Download data from url, Outcome: '" ++ e ++ "'"))]⟩,
                 effs, false)
              | .ok _ => doOverwrite env it outcome effs
        else
          if baseName uf ≠ baseName outputFile then
            (⟨some false,
              [mkRecord it (some "verify")
                (.strV ("Update Filename '" ++ uf
                  ++ "' does NOT match Original Filename used to Publish Service: '"
                  ++ outputFile ++ "'"))]⟩,
             effs, false)
          else
            doOverwrite env it outcome effs
      | none =>
        if touchItems then
          let r := touchItem (env.touchRet it) it outcome
          (⟨some r.2, r.1.items⟩, effs ++ [.updateCall it.id], true)
        else
          (appendRecord outcome (mkRecord it none .noneV), effs, true)

/-- The line-226 `for view in item.related_items("Service2Service")` loop:
touch each view in order, dropping each touch's boolean result. -/
def touchViews (env : Env) (views : List Item) (acc : Outcome × List Eff) :
    Outcome × List Eff :=
  match views with
  | [] => acc
  | v :: rest =>
    touchViews env rest
      ((touchItem (env.touchRet v) v acc.1).1, acc.2 ++ [.updateCall v.id])

/-- Line 225: `if touchItems and outcome["success"] == True:` enumerate the
"Service2Service" related views and touch each one. -/
def runCascade (env : Env) (touchItems : Bool) (st : Outcome × List Eff × Bool) :
    Outcome × List Eff :=
  match st with
  | (outcome, effs, reached) =>
    if reached && touchItems && (outcome.success == some true) then
      touchViews env env.views (outcome, effs ++ [.queryRelated "Service2Service"])
    else
      (outcome, effs)

/-- Lines 30-229: the whole `overwriteFeatureService` function.  `verbose`
only controls printing in the source and does not affect the outcome. -/
def overwriteFeatureService (env : Env) (it : Item) (updateFile : Option String)
    (touchItems : Bool) (verbose : Bool) : Outcome × List Eff :=
  runCascade env touchItems (mainBody env it updateFile touchItems)

/-- Number of records in a list whose action kind is "touch". -/
def countTouch (items : List Record) : Nat :=
  (items.filter (fun r => r.action == some "touch")).length

/-- Success condition of a `touchItem` call as a function of the
`item.update()` result: no exception and a value comparing `== True`. -/
def touchSucceeds (ret : Except String PyVal) : Bool :=
  match ret with
  | .ok v => pyEqTrue v
  | .error _ => false

/-! Helper lemmas shared by the claim theorems. -/

theorem touchItem_success_eq (ret : Except String PyVal) (it : Item) (o : Outcome) :
    (touchItem ret it o).1.success = o.success := by
  unfold touchItem
  cases ret with
  | ok v => dsimp only; split <;> rfl
  | error e => rfl

theorem touchItem_items (ret : Except String PyVal) (it : Item) (o : Outcome) :
    ∃ r, (touchItem ret it o).1.items = o.items ++ [r] ∧ r.action = some "touch" := by
  unfold touchItem
  cases ret with
  | ok v =>
    dsimp only
    split
    · exact ⟨_, rfl, rfl⟩
    · exact ⟨_, rfl, rfl⟩
  | error e => exact ⟨_, rfl, rfl⟩

theorem touchItem_snd (ret : Except String PyVal) (it : Item) (o : Outcome) :
    (touchItem ret it o).2 = touchSucceeds ret := by
  unfold touchItem touchSucceeds
  cases ret with
  | ok v => dsimp only; split <;> simp_all
  | error e => rfl

theorem countTouch_append (xs : List Record) (r : Record) (h : r.action = some "touch") :
    countTouch (xs ++ [r]) = countTouch xs + 1 := by
  simp [countTouch, List.filter_append, h]

theorem touchViews_success (env : Env) (vs : List Item) (acc : Outcome × List Eff) :
    (touchViews env vs acc).1.success = acc.1.success := by
  induction vs generalizing acc with
  | nil => rfl
  | cons v rest ih =>
    rw [touchViews, ih]
    exact touchItem_success_eq ..

theorem touchViews_count (env : Env) (vs : List Item) (acc : Outcome × List Eff) :
    countTouch (touchViews env vs acc).1.items = countTouch acc.1.items + vs.length := by
  induction vs generalizing acc with
  | nil => rfl
  | cons v rest ih =>
    rw [touchViews, ih]
    obtain ⟨r, hr, ha⟩ := touchItem_items (env.touchRet v) v acc.1
    dsimp only
    rw [hr, countTouch_append _ _ ha]
    simp [Nat.add_assoc, Nat.add_comm 1]

theorem touchViews_effs (env : Env) (vs : List Item) (acc : Outcome × List Eff) :
    (touchViews env vs acc).2 = acc.2 ++ vs.map (fun v => Eff.updateCall v.id) := by
  induction vs generalizing acc with
  | nil => simp [touchViews]
  | cons v rest ih =>
    rw [touchViews, ih]
    simp

theorem runCascade_stuck (env : Env) (ti : Bool) (st : Outcome × List Eff × Bool)
    (h : st.1.success ≠ some true) : runCascade env ti st = (st.1, st.2.1) := by
  obtain ⟨o, effs, reached⟩ := st
  have hb : (o.success == some true) = false := by
    cases ho : o.success with
    | none => rfl
    | some b =>
      cases b with
      | false => rfl
      | true => exact absurd ho h
  simp [runCascade, hb]

theorem runCascade_run (env : Env) (ti : Bool) (st : Outcome × List Eff × Bool)
    (h1 : st.2.2 = true) (h2 : ti = true) (h3 : st.1.success = some true) :
    runCascade env ti st
      = touchViews env env.views (st.1, st.2.1 ++ [.queryRelated "Service2Service"]) := by
  obtain ⟨o, effs, reached⟩ := st
  simp only at h1 h3
  subst h1 h2
  simp [runCascade, h3]

theorem overwriteOk_iff (v : PyVal) :
    overwriteOk v = true
      ↔ ∃ es w, v = PyVal.dictV es ∧ dictGet v "success" = some w ∧ truthy w = true := by
  cases v with
  | dictV es =>
    cases hf : es.find? (fun p => p.1 == "success") with
    | none =>
      simp [overwriteOk, isDict, dictGet, hf]
    | some p =>
      have hne : es.isEmpty = false := by
        cases es with
        | nil => simp at hf
        | cons a l => rfl
      simp [overwriteOk, isDict, dictGet, hf, truthy, hne]
  | noneV => simp [overwriteOk, isDict]
  | boolV b => simp [overwriteOk, isDict]
  | intV n => simp [overwriteOk, isDict]
  | strV s => simp [overwriteOk, isDict]

theorem touchItem_empty_shape (ret : Except String PyVal) (it : Item) :
    countTouch (touchItem ret it ⟨none, []⟩).1.items = 1
    ∧ (touchItem ret it ⟨none, []⟩).1.items.length = 1 := by
  obtain ⟨r, hr, ha⟩ := touchItem_items ret it ⟨none, []⟩
  rw [hr]
  exact ⟨by simp [countTouch, ha], by simp⟩

/-! Leaf equations of `mainBody`: one rewrite lemma per control path. -/

theorem mainBody_typeFail (env : Env) (it : Item) (uf : Option String) (ti : Bool)
    (hty : it.type ≠ "Feature Service") :
    mainBody env it uf ti =
      (⟨some false,
        [mkRecord it (some "verify") (.strV "Item Type is NOT a 'Feature Service'")]⟩,
       [], true) := by
  simp [mainBody, hty]

theorem mainBody_dataFail (env : Env) (it : Item) (uf : Option String) (ti : Bool)
    (hty : it.type = "Feature Service") (hdata : env.dataItems.getLastD "" = "") :
    mainBody env it uf ti =
      (⟨some false,
        [mkRecord it (some "verify")
          (.strV "Missing Associated Service Data Item or datafile Item 'name'")]⟩,
       [.queryRelated "Service2Data"], false) := by
  rw [List.getLastD_eq_getLast?] at hdata
  simp [mainBody, hty, hdata]

theorem mainBody_urlOpenFail (env : Env) (it : Item) (uf : Option String) (ti : Bool)
    (f e : String) (hty : it.type = "Feature Service")
    (hdata : env.dataItems.getLastD "" ≠ "") (hf : truthyStr uf = some f)
    (hurl : isUrl f = true) (hopen : env.urlOpen = .error e) :
    mainBody env it uf ti =
      (⟨some false,
        [mkRecord it (some "download")
          (.strV ("Failed to Download data from url, Outcome: '" ++ e ++ "'"))]⟩,
       [.queryRelated "Service2Data", .managerRead, .urlOpenCall], false) := by
  rw [List.getLastD_eq_getLast?] at hdata
  simp [mainBody, hty, hdata, hf, hurl, hopen]

theorem mainBody_noChange (env : Env) (it : Item) (uf : Option String) (ti : Bool)
    (f : String) (headers : Option (Option Nat)) (hty : it.type = "Feature Service")
    (hdata : env.dataItems.getLastD "" ≠ "") (hf : truthyStr uf = some f)
    (hurl : isUrl f = true) (hopen : env.urlOpen = .ok headers)
    (hnc : noChangeCheck (effectiveRef env) headers = true) :
    mainBody env it uf ti =
      (⟨none, [mkRecord it (some "download") (.strV "No Change in URL Data")]⟩,
       [.queryRelated "Service2Data", .managerRead, .urlOpenCall], false) := by
  rw [List.getLastD_eq_getLast?] at hdata
  simp [mainBody, hty, hdata, hf, hurl, hopen, hnc]

theorem mainBody_retrieveFail (env : Env) (it : Item) (uf : Option String) (ti : Bool)
    (f e : String) (headers : Option (Option Nat)) (hty : it.type = "Feature Service")
    (hdata : env.dataItems.getLastD "" ≠ "") (hf : truthyStr uf = some f)
    (hurl : isUrl f = true) (hopen : env.urlOpen = .ok headers)
    (hnc : noChangeCheck (effectiveRef env) headers = false)
    (hret : env.urlRetrieve = .error e) :
    mainBody env it uf ti =
      (⟨some false,
        [mkRecord it (some "download")
          (.strV ("Failed to Download data from url, Outcome: '" ++ e ++ "'"))]⟩,
       [.queryRelated "Service2Data", .managerRead, .urlOpenCall, .urlRetrieveCall],
       false) := by
  rw [List.getLastD_eq_getLast?] at hdata
  simp [mainBody, hty, hdata, hf, hurl, hopen, hnc, hret]

theorem mainBody_overwriteUrl (env : Env) (it : Item) (uf : Option String) (ti : Bool)
    (f : String) (headers : Option (Option Nat)) (hty : it.type = "Feature Service")
    (hdata : env.dataItems.getLastD "" ≠ "") (hf : truthyStr uf = some f)
    (hurl : isUrl f = true) (hopen : env.urlOpen = .ok headers)
    (hnc : noChangeCheck (effectiveRef env) headers = false)
    (hret : env.urlRetrieve = .ok ()) :
    mainBody env it uf ti =
      doOverwrite env it ⟨none, []⟩
        [.queryRelated "Service2Data", .managerRead, .urlOpenCall, .urlRetrieveCall] := by
  rw [List.getLastD_eq_getLast?] at hdata
  simp [mainBody, hty, hdata, hf, hurl, hopen, hnc, hret]

theorem mainBody_mismatch (env : Env) (it : Item) (uf : Option String) (ti : Bool)
    (f : String) (hty : it.type = "Feature Service")
    (hdata : env.dataItems.getLastD "" ≠ "") (hf : truthyStr uf = some f)
    (hurl : isUrl f = false)
    (hbase : baseName f ≠ baseName (env.dataItems.getLastD "")) :
    mainBody env it uf ti =
      (⟨some false,
        [mkRecord it (some "verify")
          (.strV ("Update Filename '" ++ f
            ++ "' does NOT match Original Filename used to Publish Service: '"
            ++ env.dataItems.getLastD "" ++ "'"))]⟩,
       [.queryRelated "Service2Data", .managerRead], false) := by
  rw [List.getLastD_eq_getLast?] at hdata hbase
  simp [mainBody, hty, hdata, hf, hurl, hbase]

theorem mainBody_overwriteLocal (env : Env) (it : Item) (uf : Option String) (ti : Bool)
    (f : String) (hty : it.type = "Feature Service")
    (hdata : env.dataItems.getLastD "" ≠ "") (hf : truthyStr uf = some f)
    (hurl : isUrl f = false)
    (hbase : baseName f = baseName (env.dataItems.getLastD "")) :
    mainBody env it uf ti =
      doOverwrite env it ⟨none, []⟩ [.queryRelated "Service2Data", .managerRead] := by
  rw [List.getLastD_eq_getLast?] at hdata hbase
  simp [mainBody, hty, hdata, hf, hurl, hbase]

theorem mainBody_primaryTouch (env : Env) (it : Item) (uf : Option String) (ti : Bool)
    (hty : it.type = "Feature Service") (hdata : env.dataItems.getLastD "" ≠ "")
    (hf : truthyStr uf = none) (hti : ti = true) :
    mainBody env it uf ti =
      (⟨some (touchItem (env.touchRet it) it ⟨none, []⟩).2,
        (touchItem (env.touchRet it) it ⟨none, []⟩).1.items⟩,
       [.queryRelated "Service2Data", .updateCall it.id], true) := by
  rw [List.getLastD_eq_getLast?] at hdata
  simp [mainBody, hty, hdata, hf, hti]

theorem mainBody_noop (env : Env) (it : Item) (uf : Option String) (ti : Bool)
    (hty : it.type = "Feature Service") (hdata : env.dataItems.getLastD "" ≠ "")
    (hf : truthyStr uf = none) (hti : ti = false) :
    mainBody env it uf ti =
      (⟨none, [mkRecord it none .noneV]⟩, [.queryRelated "Service2Data"], true) := by
  rw [List.getLastD_eq_getLast?] at hdata
  simp [mainBody, hty, hdata, hf, hti, appendRecord]

theorem doOverwrite_eq (env : Env) (it : Item) (effs : List Eff) :
    doOverwrite env it ⟨none, []⟩ effs =
      (⟨some (pyEqTrue (owStatus env)), [mkRecord it (some "update") (owStatus env)]⟩,
       effs ++ [.overwriteCall], true) := rfl

theorem owStatus_cases (env : Env) :
    (owStatus env = .boolV true ∧ ∃ v, env.overwriteRet = .ok v ∧ overwriteOk v = true)
    ∨ ((∃ s, owStatus env = .strV s)
        ∧ ∀ v, env.overwriteRet = .ok v → overwriteOk v = false) := by
  cases h : env.overwriteRet with
  | ok v =>
    by_cases hok : overwriteOk v = true
    · exact Or.inl ⟨by simp [owStatus, h, hok], v, rfl, hok⟩
    · refine Or.inr ⟨⟨flattenStatus (failMsg (pyStr v)), by simp [owStatus, h, hok]⟩, ?_⟩
      intro w hw
      injection hw with hvw
      subst hvw
      simpa using hok
  | error e =>
    refine Or.inr ⟨⟨flattenStatus (failMsg e), by simp [owStatus, h]⟩, ?_⟩
    intro w hw
    simp at hw

/-- Case analysis of the pre-cascade body: when it ends with overall failure
the outcome holds exactly one record and no destructive call beyond the
failing step itself was made; when it ends with overall success, control
reaches the cascade check and the success came from the primary action —
the overwrite when a (truthy) update source was supplied, the primary touch
otherwise. -/
theorem mainBody_analysis (env : Env) (it : Item) (uf : Option String) (ti : Bool) :
    ((mainBody env it uf ti).1.success = some false →
      (mainBody env it uf ti).1.items.length = 1
      ∧ (∀ i, Eff.updateCall i ∈ (mainBody env it uf ti).2.1 → i = it.id)
      ∧ (Eff.overwriteCall ∈ (mainBody env it uf ti).2.1 →
          (mainBody env it uf ti).1.items.map Record.action = [some "update"])
      ∧ Eff.queryRelated "Service2Service" ∉ (mainBody env it uf ti).2.1)
    ∧ ((mainBody env it uf ti).1.success = some true →
      (mainBody env it uf ti).2.2 = true
      ∧ ((∃ f, truthyStr uf = some f ∧ countTouch (mainBody env it uf ti).1.items = 0
            ∧ ∃ v, env.overwriteRet = .ok v ∧ overwriteOk v = true)
        ∨ (truthyStr uf = none ∧ ti = true
            ∧ countTouch (mainBody env it uf ti).1.items = 1
            ∧ touchSucceeds (env.touchRet it) = true))) := by
  by_cases hty : it.type = "Feature Service"
  case neg =>
    rw [mainBody_typeFail env it uf ti hty]
    constructor <;> intro hs
    · refine ⟨rfl, ?_, ?_, ?_⟩ <;> simp
    · simp at hs
  case pos =>
    by_cases hdata : env.dataItems.getLastD "" = ""
    · rw [mainBody_dataFail env it uf ti hty hdata]
      constructor <;> intro hs
      · refine ⟨rfl, ?_, ?_, ?_⟩ <;> simp
      · simp at hs
    · cases hf : truthyStr uf with
      | some f =>
        cases hurl : isUrl f with
        | true =>
          cases hopen : env.urlOpen with
          | error e =>
            rw [mainBody_urlOpenFail env it uf ti f e hty hdata hf hurl hopen]
            constructor <;> intro hs
            · refine ⟨rfl, ?_, ?_, ?_⟩ <;> simp
            · simp at hs
          | ok headers =>
            cases hnc : noChangeCheck (effectiveRef env) headers with
            | true =>
              rw [mainBody_noChange env it uf ti f headers hty hdata hf hurl hopen hnc]
              constructor <;> intro hs <;> simp at hs
            | false =>
              cases hret : env.urlRetrieve with
              | error e =>
                rw [mainBody_retrieveFail env it uf ti f e headers hty hdata hf hurl
                      hopen hnc hret]
                constructor <;> intro hs
                · refine ⟨rfl, ?_, ?_, ?_⟩ <;> simp
                · simp at hs
              | ok u =>
                cases u
                rw [mainBody_overwriteUrl env it uf ti f headers hty hdata hf hurl
                      hopen hnc hret, doOverwrite_eq]
                rcases owStatus_cases env with ⟨hst, v, hv, hok⟩ | ⟨⟨s, hst⟩, _⟩
                · rw [hst]
                  constructor <;> intro hs
                  · simp [pyEqTrue] at hs
                  · refine ⟨rfl, Or.inl ⟨f, rfl, ?_, v, hv, hok⟩⟩
                    simp [countTouch, mkRecord]
                · rw [hst]
                  constructor <;> intro hs
                  · refine ⟨rfl, ?_, ?_, ?_⟩ <;> simp [mkRecord]
                  · simp [pyEqTrue] at hs
        | false =>
          by_cases hbase : baseName f = baseName (env.dataItems.getLastD "")
          · rw [mainBody_overwriteLocal env it uf ti f hty hdata hf hurl hbase,
                doOverwrite_eq]
            rcases owStatus_cases env with ⟨hst, v, hv, hok⟩ | ⟨⟨s, hst⟩, _⟩
            · rw [hst]
              constructor <;> intro hs
              · simp [pyEqTrue] at hs
              · refine ⟨rfl, Or.inl ⟨f, rfl, ?_, v, hv, hok⟩⟩
                simp [countTouch, mkRecord]
            · rw [hst]
              constructor <;> intro hs
              · refine ⟨rfl, ?_, ?_, ?_⟩ <;> simp [mkRecord]
              · simp [pyEqTrue] at hs
          · rw [mainBody_mismatch env it uf ti f hty hdata hf hurl hbase]
            constructor <;> intro hs
            · refine ⟨rfl, ?_, ?_, ?_⟩ <;> simp
            · simp at hs
      | none =>
        rcases Bool.eq_false_or_eq_true ti with hti | hti
        · rw [mainBody_primaryTouch env it uf ti hty hdata hf hti]
          constructor <;> intro hs
          · refine ⟨(touchItem_empty_shape (env.touchRet it) it).2, ?_, ?_, ?_⟩
            · intro i hi
              simpa using hi
            · intro hmem
              simp at hmem
            · intro hmem
              simp at hmem
          · refine ⟨rfl, Or.inr ⟨rfl, hti, (touchItem_empty_shape (env.touchRet it) it).1, ?_⟩⟩
            rw [← touchItem_snd (env.touchRet it) it ⟨none, []⟩]
            simpa using hs
        · rw [mainBody_noop env it uf ti hty hdata hf hti]
          constructor <;> intro hs <;> simp at hs

theorem runCascade_success (env : Env) (ti : Bool) (st : Outcome × List Eff × Bool) :
    (runCascade env ti st).1.success = st.1.success := by
  obtain ⟨o, effs, reached⟩ := st
  unfold runCascade
  dsimp only
  split
  · rw [touchViews_success]
  · rfl

/-! Concrete fixtures used by the evaluation witnesses and counterexamples. -/

/-- Concrete Feature Service item. -/
def itemFS : Item := ⟨"i1", "Svc", "Feature Service"⟩

/-- Concrete related view item. -/
def view1 : Item := ⟨"v1", "View One", "Feature Service"⟩

/-- Concrete environment: one associated data item named "data.csv", one
related view, the platform overwrite succeeding, every touch succeeding. -/
def envOK : Env :=
  ⟨["data.csv"], [view1], 0, none, "/tmp", Except.error "offline", Except.ok (),
   Except.ok (PyVal.dictV [("success", PyVal.boolV true)]),
   fun _ => Except.ok (PyVal.boolV true)⟩

/-! Claim C1. -/

/-- C1 counterexample: with the update source supplied, the overwrite
succeeding, but `touchItems = False`, the related view is *not* touched —
no "Service2Service" query is made and no touch record is appended — so the
cascade does not run "regardless of the values of the other input flags". -/
theorem C1_counterexample :
    (overwriteFeatureService envOK itemFS (some "data.csv") false false).1.success
        = some true
    ∧ envOK.views.length = 1
    ∧ countTouch
        (overwriteFeatureService envOK itemFS (some "data.csv") false false).1.items = 0
    ∧ Eff.queryRelated "Service2Service"
        ∉ (overwriteFeatureService envOK itemFS (some "data.csv") false false).2 := by
  refine ⟨rfl, rfl, rfl, by decide⟩

/-- C1 (amended): when an update source is supplied and the overwrite of
the service succeeds *and the touchItems flag is enabled*, the function
proceeds to query the related "Service2Service" view items and touch every
one of them, appending one touch record per view regardless of each touch's
individual outcome and of the verbose flag. -/
theorem C1_amended_views_touched (env : Env) (it : Item) (f : String) (verbose : Bool)
    (hf : f ≠ "")
    (hs : (overwriteFeatureService env it (some f) true verbose).1.success = some true) :
    countTouch (overwriteFeatureService env it (some f) true verbose).1.items
        = env.views.length
    ∧ Eff.queryRelated "Service2Service"
        ∈ (overwriteFeatureService env it (some f) true verbose).2 := by
  have hsucc : (mainBody env it (some f) true).1.success = some true := by
    rw [← runCascade_success env true (mainBody env it (some f) true)]
    exact hs
  obtain ⟨hreach, hdisj⟩ := (mainBody_analysis env it (some f) true).2 hsucc
  have hcount0 : countTouch (mainBody env it (some f) true).1.items = 0 := by
    rcases hdisj with ⟨f', _, hc, _⟩ | ⟨hnone, _⟩
    · exact hc
    · simp [truthyStr, hf] at hnone
  have heq : overwriteFeatureService env it (some f) true verbose
      = touchViews env env.views
          ((mainBody env it (some f) true).1,
           (mainBody env it (some f) true).2.1 ++ [.queryRelated "Service2Service"]) := by
    unfold overwriteFeatureService
    exact runCascade_run env true _ hreach rfl hsucc
  rw [heq]
  constructor
  · rw [touchViews_count]
    simp [hcount0]
  · rw [touchViews_effs]
    simp

/-- C1 amended-claim witness: concrete run in which the overwrite succeeds
with `touchItems = True` and the single related view receives its touch. -/
theorem C1_amended_witness :
    ("data.csv" ≠ ""
      ∧ (overwriteFeatureService envOK itemFS (some "data.csv") true false).1.success
          = some true)
    ∧ (countTouch
          (overwriteFeatureService envOK itemFS (some "data.csv") true false).1.items
        = envOK.views.length
      ∧ Eff.queryRelated "Service2Service"
          ∈ (overwriteFeatureService envOK itemFS (some "data.csv") true false).2) :=
  ⟨⟨by decide, rfl⟩,
   C1_amended_views_touched envOK itemFS "data.csv" false (by decide) rfl⟩

/-! Claim C2. -/

/-- C2 counterexample: `item.update()` returning the *truthy* value `2` is
recorded as a failure — the code tests `status == True`, not truthiness —
so the appended touch record carries a failure string and the toucher
returns `false`. -/
theorem C2_counterexample :
    truthy (PyVal.intV 2) = true
    ∧ (touchItem (Except.ok (PyVal.intV 2)) itemFS ⟨none, []⟩).2 = false
    ∧ (touchItem (Except.ok (PyVal.intV 2)) itemFS ⟨none, []⟩).1.items
        = [mkRecord itemFS (some "touch") (.strV "Failed, Outcome: '2'")] := by
  refine ⟨rfl, rfl, rfl⟩

/-- C2 (amended): the touch is recorded as a success exactly when
`item.update()` returns, without raising, a value that compares equal to
`True` under Python `==` (the boolean `True` or the number `1`) — not mere
truthiness.  Any other return value or a raised error is captured as a
failure string in the appended "touch" record, and the toucher returns a
boolean reflecting that success. -/
theorem C2_amended_touch_success (ret : Except String PyVal) (it : Item) (o : Outcome) :
    ((touchItem ret it o).2 = touchSucceeds ret)
    ∧ (touchSucceeds ret = true ↔ ∃ v, ret = .ok v ∧ pyEqTrue v = true)
    ∧ (touchItem ret it o).1.items.length = o.items.length + 1
    ∧ (touchSucceeds ret = false →
        ∃ s, (touchItem ret it o).1.items.getLast?
          = some (mkRecord it (some "touch") (.strV s)))
    ∧ (touchItem ret it o).1.success = o.success := by
  refine ⟨touchItem_snd ret it o, ?_, ?_, ?_, touchItem_success_eq ret it o⟩
  · cases ret with
    | ok v => simp [touchSucceeds]
    | error e => simp [touchSucceeds]
  · obtain ⟨r, hr, _⟩ := touchItem_items ret it o
    rw [hr]
    simp
  · intro hfail
    cases ret with
    | ok v =>
      have hv : pyEqTrue v = false := by simpa [touchSucceeds] using hfail
      refine ⟨flattenStatus (failMsg (pyStr v)), ?_⟩
      simp [touchItem, hv, appendRecord, mkRecord]
    | error e =>
      refine ⟨flattenStatus (failMsg e), ?_⟩
      simp [touchItem, appendRecord, mkRecord]

/-- C2 amended-claim witness: concrete failing touch (raised error). -/
theorem C2_amended_witness :
    ((touchItem (Except.error "boom") itemFS ⟨none, []⟩).2
        = touchSucceeds (Except.error "boom"))
    ∧ (touchSucceeds (Except.error "boom") = true
        ↔ ∃ v, (Except.error "boom" : Except String PyVal) = .ok v ∧ pyEqTrue v = true)
    ∧ (touchItem (Except.error "boom") itemFS ⟨none, []⟩).1.items.length
        = (⟨none, []⟩ : Outcome).items.length + 1
    ∧ (touchSucceeds (Except.error "boom") = false →
        ∃ s, (touchItem (Except.error "boom") itemFS ⟨none, []⟩).1.items.getLast?
          = some (mkRecord itemFS (some "touch") (.strV s)))
    ∧ (touchItem (Except.error "boom") itemFS ⟨none, []⟩).1.success
        = (⟨none, []⟩ : Outcome).success :=
  C2_amended_touch_success (Except.error "boom") itemFS ⟨none, []⟩

/-! Claim C3. -/

/-- C3: once a step sets overall success to `False`, nothing destructive
executes afterwards: the returned outcome holds exactly the failing step's
single record, the related "Service2Service" views are never queried (hence
never touched), the only `item.update()` call that can appear in the trace
is the primary item's own touch (the failing step itself), and an overwrite
call can appear only as the step that recorded the failing "update" result,
never after some other step's failure. -/
theorem C3_no_destructive_after_failure (env : Env) (it : Item) (uf : Option String)
    (ti verbose : Bool)
    (hs : (overwriteFeatureService env it uf ti verbose).1.success = some false) :
    (overwriteFeatureService env it uf ti verbose).1.items.length = 1
    ∧ Eff.queryRelated "Service2Service" ∉ (overwriteFeatureService env it uf ti verbose).2
    ∧ (∀ i, Eff.updateCall i ∈ (overwriteFeatureService env it uf ti verbose).2 → i = it.id)
    ∧ (Eff.overwriteCall ∈ (overwriteFeatureService env it uf ti verbose).2 →
        (overwriteFeatureService env it uf ti verbose).1.items.map Record.action
          = [some "update"]) := by
  have hm : (mainBody env it uf ti).1.success = some false := by
    rw [← runCascade_success env ti (mainBody env it uf ti)]
    exact hs
  have hne : (mainBody env it uf ti).1.success ≠ some true := by
    rw [hm]
    simp
  have heq : overwriteFeatureService env it uf ti verbose
      = ((mainBody env it uf ti).1, (mainBody env it uf ti).2.1) := by
    unfold overwriteFeatureService
    exact runCascade_stuck env ti _ hne
  obtain ⟨h1, h2, h3, h4⟩ := (mainBody_analysis env it uf ti).1 hm
  rw [heq]
  exact ⟨h1, h4, h2, h3⟩

/-- C3 witness: a failed overwrite (platform call raising) sets success to
`False` and nothing destructive follows. -/
theorem C3_witness :
    ((overwriteFeatureService
        ⟨["data.csv"], [view1], 0, none, "/tmp", Except.error "offline", Except.ok (),
         Except.error "boom", fun _ => Except.ok (PyVal.boolV true)⟩
        itemFS (some "data.csv") true false).1.success = some false)
    ∧ ((overwriteFeatureService
        ⟨["data.csv"], [view1], 0, none, "/tmp", Except.error "offline", Except.ok (),
         Except.error "boom", fun _ => Except.ok (PyVal.boolV true)⟩
        itemFS (some "data.csv") true false).1.items.length = 1
      ∧ Eff.queryRelated "Service2Service"
          ∉ (overwriteFeatureService
              ⟨["data.csv"], [view1], 0, none, "/tmp", Except.error "offline",
               Except.ok (), Except.error "boom", fun _ => Except.ok (PyVal.boolV true)⟩
              itemFS (some "data.csv") true false).2
      ∧ (∀ i, Eff.updateCall i
            ∈ (overwriteFeatureService
                ⟨["data.csv"], [view1], 0, none, "/tmp", Except.error "offline",
                 Except.ok (), Except.error "boom", fun _ => Except.ok (PyVal.boolV true)⟩
                itemFS (some "data.csv") true false).2 → i = itemFS.id)
      ∧ (Eff.overwriteCall
            ∈ (overwriteFeatureService
                ⟨["data.csv"], [view1], 0, none, "/tmp", Except.error "offline",
                 Except.ok (), Except.error "boom", fun _ => Except.ok (PyVal.boolV true)⟩
                itemFS (some "data.csv") true false).2 →
          (overwriteFeatureService
              ⟨["data.csv"], [view1], 0, none, "/tmp", Except.error "offline",
               Except.ok (), Except.error "boom", fun _ => Except.ok (PyVal.boolV true)⟩
              itemFS (some "data.csv") true false).1.items.map Record.action
            = [some "update"])) :=
  ⟨rfl,
   C3_no_destructive_after_failure
     ⟨["data.csv"], [view1], 0, none, "/tmp", Except.error "offline", Except.ok (),
      Except.error "boom", fun _ => Except.ok (PyVal.boolV true)⟩
     itemFS (some "data.csv") true false rfl⟩

/-! Claim C4. -/

/-- C4: for every item whose type is not "Feature Service", the outcome has
`success = False` and exactly one "verify" record, irrespective of the
`updateFile`, `touchItems` and `verbose` arguments, and the trace is empty:
no related-item query (nor any other external call) is made. -/
theorem C4_type_check (env : Env) (it : Item) (uf : Option String) (ti verbose : Bool)
    (hty : it.type ≠ "Feature Service") :
    overwriteFeatureService env it uf ti verbose =
      (⟨some false,
        [mkRecord it (some "verify") (.strV "Item Type is NOT a 'Feature Service'")]⟩,
       []) := by
  unfold overwriteFeatureService
  rw [mainBody_typeFail env it uf ti hty]
  exact runCascade_stuck env ti _ (by simp)

/-- C4 witness: a "Web Map" item is rejected with a single verify record
and an empty call trace. -/
theorem C4_witness :
    ((⟨"i2", "T", "Web Map"⟩ : Item).type ≠ "Feature Service")
    ∧ overwriteFeatureService envOK ⟨"i2", "T", "Web Map"⟩ (some "x.csv") true true
        = (⟨some false,
            [mkRecord ⟨"i2", "T", "Web Map"⟩ (some "verify")
              (.strV "Item Type is NOT a 'Feature Service'")]⟩,
           []) :=
  ⟨by decide, C4_type_check envOK ⟨"i2", "T", "Web Map"⟩ (some "x.csv") true true (by decide)⟩

/-! Claim C5. -/

/-- C5: for every Feature Service item whose "Service2Data" query yields no
data item, or whose (last) data item carries an empty filename, the
function returns immediately with `success = False` and exactly one record,
and the only external call in the trace is the "Service2Data" query itself:
no view cascade, no overwrite, no download — regardless of whether an
update source was supplied. -/
theorem C5_missing_data (env : Env) (it : Item) (uf : Option String) (ti verbose : Bool)
    (hty : it.type = "Feature Service") (hdata : env.dataItems.getLastD "" = "") :
    overwriteFeatureService env it uf ti verbose =
      (⟨some false,
        [mkRecord it (some "verify")
          (.strV "Missing Associated Service Data Item or datafile Item 'name'")]⟩,
       [.queryRelated "Service2Data"]) := by
  unfold overwriteFeatureService
  rw [mainBody_dataFail env it uf ti hty hdata]
  exact runCascade_stuck env ti _ (by simp)

/-- C5 witness: no associated data item, with an update source supplied. -/
theorem C5_witness :
    (itemFS.type = "Feature Service"
      ∧ (⟨[], [view1], 0, none, "/tmp", Except.error "offline", Except.ok (),
          Except.ok (PyVal.dictV [("success", PyVal.boolV true)]),
          fun _ => Except.ok (PyVal.boolV true)⟩ : Env).dataItems.getLastD "" = "")
    ∧ overwriteFeatureService
        ⟨[], [view1], 0, none, "/tmp", Except.error "offline", Except.ok (),
         Except.ok (PyVal.dictV [("success", PyVal.boolV true)]),
         fun _ => Except.ok (PyVal.boolV true)⟩
        itemFS (some "data.csv") true false
        = (⟨some false,
            [mkRecord itemFS (some "verify")
              (.strV "Missing Associated Service Data Item or datafile Item 'name'")]⟩,
           [.queryRelated "Service2Data"]) :=
  ⟨⟨rfl, rfl⟩,
   C5_missing_data
     ⟨[], [view1], 0, none, "/tmp", Except.error "offline", Except.ok (),
      Except.ok (PyVal.dictV [("success", PyVal.boolV true)]),
      fun _ => Except.ok (PyVal.boolV true)⟩
     itemFS (some "data.csv") true false rfl rfl⟩

/-! Claim C6. -/

/-- C6: for every (truthy) local update path — scheme not in
{ftp, http, https} — whose final filename component differs from the
original published filename, the outcome is `success = False` with a single
"verify" record, and the platform overwrite operation is never invoked. -/
theorem C6_filename_mismatch (env : Env) (it : Item) (ti verbose : Bool) (f : String)
    (hty : it.type = "Feature Service") (hdata : env.dataItems.getLastD "" ≠ "")
    (hf : f ≠ "") (hurl : isUrl f = false)
    (hbase : baseName f ≠ baseName (env.dataItems.getLastD "")) :
    overwriteFeatureService env it (some f) ti verbose =
      (⟨some false,
        [mkRecord it (some "verify")
          (.strV ("Update Filename '" ++ f
            ++ "' does NOT match Original Filename used to Publish Service: '"
            ++ env.dataItems.getLastD "" ++ "'"))]⟩,
       [.queryRelated "Service2Data", .managerRead])
    ∧ Eff.overwriteCall ∉ (overwriteFeatureService env it (some f) ti verbose).2 := by
  have htr : truthyStr (some f) = some f := by simp [truthyStr, hf]
  have heq : overwriteFeatureService env it (some f) ti verbose =
      (⟨some false,
        [mkRecord it (some "verify")
          (.strV ("Update Filename '" ++ f
            ++ "' does NOT match Original Filename used to Publish Service: '"
            ++ env.dataItems.getLastD "" ++ "'"))]⟩,
       [.queryRelated "Service2Data", .managerRead]) := by
    unfold overwriteFeatureService
    rw [mainBody_mismatch env it (some f) ti f hty hdata htr hurl hbase]
    exact runCascade_stuck env ti _ (by simp)
  refine ⟨heq, ?_⟩
  rw [heq]
  simp

/-- C6 witness: uploading "other.csv" against registered "data.csv" is
rejected without any overwrite call. -/
theorem C6_witness :
    (itemFS.type = "Feature Service"
      ∧ envOK.dataItems.getLastD "" ≠ ""
      ∧ "other.csv" ≠ ""
      ∧ isUrl "other.csv" = false
      ∧ baseName "other.csv" ≠ baseName (envOK.dataItems.getLastD ""))
    ∧ (overwriteFeatureService envOK itemFS (some "other.csv") true false =
        (⟨some false,
          [mkRecord itemFS (some "verify")
            (.strV ("Update Filename '" ++ "other.csv"
              ++ "' does NOT match Original Filename used to Publish Service: '"
              ++ envOK.dataItems.getLastD "" ++ "'"))]⟩,
         [.queryRelated "Service2Data", .managerRead])
      ∧ Eff.overwriteCall ∉ (overwriteFeatureService envOK itemFS (some "other.csv") true false).2) :=
  ⟨⟨rfl, by decide, by decide, by decide, by decide⟩,
   C6_filename_mismatch envOK itemFS true false "other.csv" rfl (by decide) (by decide)
     (by decide) (by decide)⟩

/-! Claim C7. -/

/-- C7: for a remote URL update source, when the effective reference
timestamp — the service's last-edit time if known, else the pre-existing
local copy's modification time — exists (is not the falsy `0`) and is at
least the parsed "Last-Modified" response header, the function returns
immediately with exactly one record, of action "download" and result
"No Change in URL Data", overall success left unset (`None`), and neither
the download to the temp path nor the overwrite call is made. -/
theorem C7_no_change (env : Env) (it : Item) (ti verbose : Bool) (f : String)
    (t hdr : Nat) (hty : it.type = "Feature Service")
    (hdata : env.dataItems.getLastD "" ≠ "") (hurl : isUrl f = true)
    (hopen : env.urlOpen = .ok (some (some hdr)))
    (href : effectiveRef env = some t) (hle : hdr ≤ t) :
    overwriteFeatureService env it (some f) ti verbose =
      (⟨none, [mkRecord it (some "download") (.strV "No Change in URL Data")]⟩,
       [.queryRelated "Service2Data", .managerRead, .urlOpenCall])
    ∧ Eff.urlRetrieveCall ∉ (overwriteFeatureService env it (some f) ti verbose).2
    ∧ Eff.overwriteCall ∉ (overwriteFeatureService env it (some f) ti verbose).2 := by
  have hfne : f ≠ "" := by
    intro h0
    subst h0
    exact absurd hurl (by decide)
  have htr : truthyStr (some f) = some f := by simp [truthyStr, hfne]
  have hnc : noChangeCheck (effectiveRef env) (some (some hdr)) = true := by
    rw [href]
    simp [noChangeCheck, hle]
  have heq : overwriteFeatureService env it (some f) ti verbose =
      (⟨none, [mkRecord it (some "download") (.strV "No Change in URL Data")]⟩,
       [.queryRelated "Service2Data", .managerRead, .urlOpenCall]) := by
    unfold overwriteFeatureService
    rw [mainBody_noChange env it (some f) ti f (some (some hdr)) hty hdata htr hurl
          hopen hnc]
    exact runCascade_stuck env ti _ (by simp)
  refine ⟨heq, ?_, ?_⟩ <;> rw [heq] <;> simp

/-- C7 witness: service edited at second 5 (5000 ms), remote header parsing
to second 4 — the run short-circuits with "No Change in URL Data". -/
theorem C7_witness :
    (itemFS.type = "Feature Service"
      ∧ (⟨["data.csv"], [view1], 5000, none, "/tmp", Except.ok (some (some 4)),
          Except.ok (), Except.error "boom",
          fun _ => Except.ok (PyVal.boolV true)⟩ : Env).dataItems.getLastD "" ≠ ""
      ∧ isUrl "http://x/data.csv" = true
      ∧ (⟨["data.csv"], [view1], 5000, none, "/tmp", Except.ok (some (some 4)),
          Except.ok (), Except.error "boom",
          fun _ => Except.ok (PyVal.boolV true)⟩ : Env).urlOpen = .ok (some (some 4))
      ∧ effectiveRef
          ⟨["data.csv"], [view1], 5000, none, "/tmp", Except.ok (some (some 4)),
           Except.ok (), Except.error "boom",
           fun _ => Except.ok (PyVal.boolV true)⟩ = some 5
      ∧ 4 ≤ 5)
    ∧ (overwriteFeatureService
        ⟨["data.csv"], [view1], 5000, none, "/tmp", Except.ok (some (some 4)),
         Except.ok (), Except.error "boom", fun _ => Except.ok (PyVal.boolV true)⟩
        itemFS (some "http://x/data.csv") true false =
        (⟨none, [mkRecord itemFS (some "download") (.strV "No Change in URL Data")]⟩,
         [.queryRelated "Service2Data", .managerRead, .urlOpenCall])
      ∧ Eff.urlRetrieveCall ∉ (overwriteFeatureService
          ⟨["data.csv"], [view1], 5000, none, "/tmp", Except.ok (some (some 4)),
           Except.ok (), Except.error "boom", fun _ => Except.ok (PyVal.boolV true)⟩
          itemFS (some "http://x/data.csv") true false).2
      ∧ Eff.overwriteCall ∉ (overwriteFeatureService
          ⟨["data.csv"], [view1], 5000, none, "/tmp", Except.ok (some (some 4)),
           Except.ok (), Except.error "boom", fun _ => Except.ok (PyVal.boolV true)⟩
          itemFS (some "http://x/data.csv") true false).2) :=
  ⟨⟨rfl, by decide, by decide, rfl, rfl, by decide⟩,
   C7_no_change
     ⟨["data.csv"], [view1], 5000, none, "/tmp", Except.ok (some (some 4)),
      Except.ok (), Except.error "boom", fun _ => Except.ok (PyVal.boolV true)⟩
     itemFS true false "http://x/data.csv" 5 4 rfl (by decide) (by decide) rfl rfl
     (by decide)⟩

/-! Claim C8. -/

/-- C8: the overwrite step appends exactly one "update" record; its result
is the success value `True` exactly when `manager.overwrite` returned a
dict containing a truthy "success" key; any other shape, any falsy value,
or a raised exception yields a failure string instead; and overall success
is set to `True` exactly when the recorded update result is `True`. -/
theorem C8_overwrite_result (env : Env) (it : Item) (o : Outcome) (effs : List Eff) :
    (doOverwrite env it o effs).1.items
        = o.items ++ [mkRecord it (some "update") (owStatus env)]
    ∧ (owStatus env = .boolV true
        ↔ ∃ v es w, env.overwriteRet = .ok v ∧ v = .dictV es
            ∧ dictGet v "success" = some w ∧ truthy w = true)
    ∧ (owStatus env ≠ .boolV true → ∃ s, owStatus env = .strV s)
    ∧ (doOverwrite env it o effs).1.success = some (pyEqTrue (owStatus env))
    ∧ ((doOverwrite env it o effs).1.success = some true ↔ owStatus env = .boolV true) := by
  refine ⟨rfl, ?_, ?_, rfl, ?_⟩
  · constructor
    · intro htrue
      rcases owStatus_cases env with ⟨_, v, hv, hok⟩ | ⟨⟨s, hst⟩, _⟩
      · obtain ⟨es, w, hves, hget, hw⟩ := (overwriteOk_iff v).mp hok
        exact ⟨v, es, w, hv, hves, hget, hw⟩
      · rw [hst] at htrue
        exact absurd htrue (by simp)
    · rintro ⟨v, es, w, hv, hves, hget, hw⟩
      have hok : overwriteOk v = true := (overwriteOk_iff v).mpr ⟨es, w, hves, hget, hw⟩
      simp [owStatus, hv, hok]
  · intro hne
    rcases owStatus_cases env with ⟨hst, _⟩ | ⟨⟨s, hst⟩, _⟩
    · exact absurd hst hne
    · exact ⟨s, hst⟩
  · have h4 : (doOverwrite env it o effs).1.success = some (pyEqTrue (owStatus env)) := rfl
    rw [h4]
    rcases owStatus_cases env with ⟨hst, _⟩ | ⟨⟨s, hst⟩, _⟩ <;> rw [hst] <;>
      simp [pyEqTrue]

/-- C8 witness: concrete successful overwrite (`{"success": True}`). -/
theorem C8_witness :
    (doOverwrite envOK itemFS ⟨none, []⟩ []).1.items
        = [] ++ [mkRecord itemFS (some "update") (owStatus envOK)]
    ∧ (owStatus envOK = .boolV true
        ↔ ∃ v es w, envOK.overwriteRet = .ok v ∧ v = .dictV es
            ∧ dictGet v "success" = some w ∧ truthy w = true)
    ∧ (owStatus envOK ≠ .boolV true → ∃ s, owStatus envOK = .strV s)
    ∧ (doOverwrite envOK itemFS ⟨none, []⟩ []).1.success = some (pyEqTrue (owStatus envOK))
    ∧ ((doOverwrite envOK itemFS ⟨none, []⟩ []).1.success = some true
        ↔ owStatus envOK = .boolV true) :=
  C8_overwrite_result envOK itemFS ⟨none, []⟩ []

/-! Claim C9. -/

/-- C9: for every failure string of the overwrite/touch error paths — the
formatted message `"Failed, Outcome: '...'"` — when the message contains
the marker "error code" case-insensitively, every embedded newline
character of the recorded string is replaced by a space
(`flattenNewlines`, the single-character `replace`); when the marker is
absent the string is recorded unchanged.  The last two conjuncts tie the
rule to the actual records appended by the touch and overwrite error
paths, and `flattenNewlines` indeed leaves no newline in its output. -/
theorem C9_error_code_flattening (s e : String) (it : Item) (o : Outcome) (env : Env)
    (effs : List Eff) :
    (containsSub (pyLower s) "error code" = true → flattenStatus s = flattenNewlines s)
    ∧ (containsSub (pyLower s) "error code" = false → flattenStatus s = s)
    ∧ (∀ c, c ∈ (flattenNewlines s).data → c ≠ '\n')
    ∧ ((touchItem (.error e) it o).1.items.getLast?
        = some (mkRecord it (some "touch") (.strV (flattenStatus (failMsg e)))))
    ∧ (env.overwriteRet = .error e →
        (doOverwrite env it o effs).1.items.getLast?
          = some (mkRecord it (some "update") (.strV (flattenStatus (failMsg e))))) := by
  refine ⟨?_, ?_, ?_, ?_, ?_⟩
  · intro h
    simp [flattenStatus, h]
  · intro h
    simp [flattenStatus, h]
  · intro c hc
    simp only [flattenNewlines, List.mem_map] at hc
    obtain ⟨a, _, ha⟩ := hc
    by_cases hna : a = '\n'
    · simp [hna] at ha
      subst ha
      decide
    · simp [hna] at ha
      subst ha
      exact hna
  · simp [touchItem, appendRecord, mkRecord]
  · intro h
    simp [doOverwrite, owStatus, h, appendRecord, mkRecord]

/-- C9 witness: a message carrying the marker gets its newline flattened;
one without it is recorded verbatim. -/
theorem C9_witness :
    (containsSub (pyLower "ERROR CODE 500\nBad") "error code" = true
      ∧ flattenStatus "ERROR CODE 500\nBad" = flattenNewlines "ERROR CODE 500\nBad")
    ∧ (containsSub (pyLower "plain\nmessage") "error code" = false
      ∧ flattenStatus "plain\nmessage" = "plain\nmessage") :=
  ⟨⟨by decide,
    (C9_error_code_flattening "ERROR CODE 500\nBad" "x" itemFS ⟨none, []⟩ envOK []).1
      (by decide)⟩,
   ⟨by decide,
    (C9_error_code_flattening "plain\nmessage" "x" itemFS ⟨none, []⟩ envOK []).2.1
      (by decide)⟩⟩

/-! Claim C10. -/

/-- C10: the outcome's success field is an `Option Bool` (`None`, `True` or
`False`), initialized to `None`; the view cascade never modifies it (it only
appends records — the final success equals the pre-cascade success); it
becomes `True` only as the result of the primary action: the overwrite when
a truthy update source was supplied, the primary touch otherwise; and in
the no-op branch (no update source, touching disabled) it stays `None`. -/
theorem C10_success_invariant (env : Env) (it : Item) (uf : Option String)
    (ti verbose : Bool) :
    (overwriteFeatureService env it uf ti verbose).1.success
        = (mainBody env it uf ti).1.success
    ∧ ((overwriteFeatureService env it uf ti verbose).1.success = some true →
        (∃ f, truthyStr uf = some f
            ∧ ∃ v, env.overwriteRet = .ok v ∧ overwriteOk v = true)
        ∨ (truthyStr uf = none ∧ ti = true ∧ touchSucceeds (env.touchRet it) = true))
    ∧ (truthyStr uf = none → ti = false → it.type = "Feature Service" →
        env.dataItems.getLastD "" ≠ "" →
        (overwriteFeatureService env it uf ti verbose).1.success = none) := by
  refine ⟨runCascade_success env ti _, ?_, ?_⟩
  · intro hs
    have hm : (mainBody env it uf ti).1.success = some true := by
      rw [← runCascade_success env ti (mainBody env it uf ti)]
      exact hs
    obtain ⟨_, hdisj⟩ := (mainBody_analysis env it uf ti).2 hm
    rcases hdisj with ⟨f, hf, _, v, hv, hok⟩ | ⟨hnone, hti, _, hts⟩
    · exact Or.inl ⟨f, hf, v, hv, hok⟩
    · exact Or.inr ⟨hnone, hti, hts⟩
  · intro h1 h2 h3 h4
    calc (overwriteFeatureService env it uf ti verbose).1.success
        = (mainBody env it uf ti).1.success := runCascade_success env ti _
      _ = none := by rw [mainBody_noop env it uf ti h3 h4 h1 h2]

/-- C10 witness: touch-only mode disabled leaves success unset (`None`). -/
theorem C10_witness :
    ((truthyStr none = none ∧ (false : Bool) = false
      ∧ itemFS.type = "Feature Service" ∧ envOK.dataItems.getLastD "" ≠ "")
      ∧ (overwriteFeatureService envOK itemFS none false false).1.success = none)
    ∧ (overwriteFeatureService envOK itemFS none false false).1.success
        = (mainBody envOK itemFS none false).1.success :=
  ⟨⟨⟨rfl, rfl, rfl, by decide⟩,
    (C10_success_invariant envOK itemFS none false false).2.2 rfl rfl rfl (by decide)⟩,
   (C10_success_invariant envOK itemFS none false false).1⟩

end OverwriteFS
